import Mathlib

/-!
Verification of the `re` rules-engine façade service (package `re`,
`service.go`).  The service gates stream/rule management operations of an
external Kuiper engine behind token identity checks, namespaces resource
names per caller, and translates HTTP responses into result strings or
typed errors.

The embedding below mirrors `service.go`: the identity collaborator, the
channel-existence collaborator, the HTTP transport and the JSON decoders
are opaque parameters gathered in an `Env` record; every operation returns
the ordered list of HTTP requests it issued together with either a typed
result (`some (Except Err _)`) or `none` marking a Go runtime panic
(out-of-bounds slice indexing).
-/

namespace Re

/-- The fixed backend base URL (`const host` in `service.go`). -/
def host : String := "http://localhost:9081"

/-- Modelled from the spec: `FORMAT` is one of the two fixed format/type
constants referenced by the `sql` builder; its definition lives outside the
provided source file, so its concrete value is immaterial here. -/
def FORMAT : String := "JSON"

/-- Modelled from the spec: `TYPE` is the second fixed constant referenced
by the `sql` builder; defined outside the provided source file. -/
def TYPE : String := "mqtt"

/-- Engine status payload (`type Info struct` in `service.go`). -/
structure Info where
  version : String
  os : String
  upTimeSeconds : Int
  deriving DecidableEq, Repr

/-- Modelled from the spec: the `Stream` struct is defined outside the
provided source file; `service.go` only touches its `Name` field, so the
model records the name together with the rest of the decoded payload kept
abstract as a string. -/
structure Stream where
  name : String
  rest : String := ""
  deriving DecidableEq, Repr

/-- Modelled from the spec: nested field of a rule action carrying the
referenced channel/topic (`rule.Actions[0].Mainflux.Channel`). -/
structure MainfluxAction where
  channel : String
  deriving DecidableEq, Repr

/-- Modelled from the spec: one element of a rule's action list. -/
structure Action where
  mainflux : MainfluxAction
  deriving DecidableEq, Repr

/-- Modelled from the spec: a rule has an identifier, an embedded SQL query
string, and a list of actions (`rule.ID`, `rule.SQL`, `rule.Actions`). -/
structure Rule where
  ID : String
  SQL : String
  actions : List Action
  deriving DecidableEq, Repr

/-- Request bodies the service ever sends: none, a JSON object whose single
field `sql` holds a query string (`json.Marshal(map[string]string)`), or a
JSON-marshalled rule. -/
inductive Body where
  | empty : Body
  | sqlBody : String → Body
  | ruleBody : Rule → Body
  deriving DecidableEq, Repr

/-- An HTTP request issued to the backend engine. -/
structure Request where
  method : String
  url : String
  body : Body
  deriving DecidableEq, Repr

/-- An HTTP response from the backend engine: status code plus the full
response body text. -/
structure Response where
  statusCode : Nat
  body : String
  deriving DecidableEq, Repr

/-- The four error kinds of `service.go` (`ErrMalformedEntity`,
`ErrUnauthorizedAccess`, `ErrNotFound`, `ErrKuiperServer`).  Wrapped causes
are irrelevant to the properties at stake, so only the kind is kept. -/
inductive Err where
  | malformedEntity : Err
  | unauthorizedAccess : Err
  | notFound : Err
  | kuiperServer : Err
  deriving DecidableEq, Repr

/-- The opaque collaborators of the service: identity lookup
(`auth.Identify`, `none` on error), channel existence (`sdk.Channel`,
`false` on error), HTTP transport (`Except.error` on transport failure),
and the JSON decoders for the three decoded payload shapes. -/
structure Env where
  identify : String → Option String
  channelOk : String → String → Bool
  http : Request → Except Unit Response
  decodeInfo : String → Option Info
  decodeStrings : String → Option (List String)
  decodeStream : String → Option Stream

/-- `func prefix(id string) string`: the caller identity with every hyphen
removed, followed by an underscore. -/
def pfx (id : String) : String :=
  ⟨id.data.filter (fun c => c ≠ '-')⟩ ++ "_"

/-- `func prepend(id, name string) string`: prefix the namespacing prefix. -/
def prepend (id name : String) : String :=
  pfx id ++ name

/-- Removal of the first occurrence of `pat` in `s` (character level),
embedding `strings.Replace(s, pat, "", 1)`. -/
def removeOnce (pat : List Char) : List Char → List Char
  | [] => if pat.isPrefixOf ([] : List Char) then List.drop pat.length [] else []
  | c :: rest =>
    if pat.isPrefixOf (c :: rest) then (c :: rest).drop pat.length
    else c :: removeOnce pat rest

/-- `func remove(id, name string) string`: drop the first occurrence of the
caller's prefix anywhere in `name`. -/
def remove (id name : String) : String :=
  ⟨removeOnce (pfx id).data name.data⟩

/-- Accumulator loop of `func indexOf` (`for k, v := range data`). -/
def indexOfAux (element : String) : List String → Int → Int
  | [], _ => -1
  | v :: rest, k => if element = v then k else indexOfAux element rest (k + 1)

/-- `func indexOf(element string, data []string) int`: index of the first
occurrence, `-1` when absent. -/
def indexOf (element : String) (data : List String) : Int :=
  indexOfAux element data 0

/-- `func sql(name, topic, row string) string`: the backend query built for
create/update stream. -/
def sql (name topic row : String) : String :=
  "create stream " ++ name ++ " (" ++ row ++ ") WITH (DATASOURCE = \"" ++
    topic ++ "\" FORMAT = \"" ++ FORMAT ++ "\" TYPE = \"" ++ TYPE ++ "\")"

/-- Whitespace recognised by `strings.Fields` (`unicode.IsSpace`): the
full Unicode White_Space table — ASCII whitespace, the two Latin-1 space
characters, and the space runes above U+00FF (U+1680, U+2000..U+200A,
U+2028, U+2029, U+202F, U+205F, U+3000). -/
def isSpaceChar (c : Char) : Bool :=
  c = ' ' || c = '\t' || c = '\n' || c = '\x0b' || c = '\x0c' || c = '\r' ||
    c = '\x85' || c = '\xa0' || c = ' ' ||
    c = ' ' || c = ' ' || c = ' ' || c = ' ' ||
    c = ' ' || c = ' ' || c = ' ' || c = ' ' ||
    c = ' ' || c = ' ' || c = ' ' ||
    c = ' ' || c = ' ' || c = ' ' || c = ' ' ||
    c = '　'

/-- Scanner loop behind `strings.Fields`: `cur` holds the characters of
the word in progress, in reverse. -/
def fieldsAux (cur : List Char) : List Char → List (List Char)
  | [] => if cur = [] then [] else [cur.reverse]
  | c :: rest =>
    if isSpaceChar c then
      if cur = [] then fieldsAux [] rest
      else cur.reverse :: fieldsAux [] rest
    else fieldsAux (c :: cur) rest

/-- `strings.Fields`: the maximal whitespace-free substrings, in order. -/
def fields (s : String) : List String :=
  (fieldsAux [] s.data).map String.mk

/-- The `from`-clause rewrite inside `CreateRule`: tokenize the SQL, find
the first case-sensitive `from`, namespace the token right after it, and
rejoin with single spaces.  `none` embeds the Go panic on out-of-bounds
assignment `words[idx] = ...`. -/
def rewriteSQL (uid sqlStr : String) : Option String :=
  let words := fields sqlStr
  let idx := (indexOf "from" words + 1).toNat
  match words[idx]? with
  | none => none
  | some w => some (String.intercalate " " (words.set idx (prepend uid w)))

/-- `func result(res, action, status)`: on the expected status an
"<action> successful." string, otherwise a failure string carrying the
action, decimal status code, and the raw response body. -/
def result (res : Response) (action : String) (status : Nat) :
    Except Err String :=
  if res.statusCode ≠ status then
    Except.ok (action ++ " failed. Kuiper http status: " ++
      Nat.repr res.statusCode ++ ". " ++ res.body)
  else
    Except.ok (action ++ " successful.")

deriving instance DecidableEq for Except

/-- Outcome of one operation: the ordered requests issued, and either the
typed result or `none` for a Go runtime panic. -/
abbrev Outcome (α : Type) := List Request × Option (Except Err α)

/-- `reService.Info`: unauthenticated GET of the health endpoint. -/
def info (env : Env) : Outcome Info :=
  let req : Request := ⟨"GET", host, Body.empty⟩
  match env.http req with
  | Except.error _ => ([req], some (Except.error Err.kuiperServer))
  | Except.ok res =>
    match env.decodeInfo res.body with
    | none => ([req], some (Except.error Err.kuiperServer))
    | some i => ([req], some (Except.ok i))

/-- `reService.CreateStream`: identify, channel check, then POST the built
query to `/streams` and translate the response. -/
def createStream (env : Env) (token name topic row : String) :
    Outcome String :=
  match env.identify token with
  | none => ([], some (Except.error Err.unauthorizedAccess))
  | some uid =>
    if env.channelOk topic token then
      let q := sql (prepend uid name) topic row
      let req : Request := ⟨"POST", host ++ "/streams", Body.sqlBody q⟩
      match env.http req with
      | Except.error _ => ([req], some (Except.error Err.kuiperServer))
      | Except.ok res => ([req], some (result res "Create stream" 201))
    else ([], some (Except.error Err.unauthorizedAccess))

/-- `reService.UpdateStream`: identify, channel check, then PUT the built
query to `/streams/{name}` and translate the response. -/
def updateStream (env : Env) (token name topic row : String) :
    Outcome String :=
  match env.identify token with
  | none => ([], some (Except.error Err.unauthorizedAccess))
  | some uid =>
    if env.channelOk topic token then
      let nm := prepend uid name
      let q := sql nm topic row
      let req : Request := ⟨"PUT", host ++ "/streams/" ++ nm, Body.sqlBody q⟩
      match env.http req with
      | Except.error _ => ([req], some (Except.error Err.kuiperServer))
      | Except.ok res => ([req], some (result res "Update stream" 200))
    else ([], some (Except.error Err.unauthorizedAccess))

/-- `reService.ListStreams`: identify, GET `/streams`, decode the name
list, and strip the caller's prefix from every entry. -/
def listStreams (env : Env) (token : String) : Outcome (List String) :=
  match env.identify token with
  | none => ([], some (Except.error Err.unauthorizedAccess))
  | some uid =>
    let req : Request := ⟨"GET", host ++ "/streams", Body.empty⟩
    match env.http req with
    | Except.error _ => ([req], some (Except.error Err.kuiperServer))
    | Except.ok res =>
      match env.decodeStrings res.body with
      | none => ([req], some (Except.error Err.malformedEntity))
      | some streams => ([req], some (Except.ok (streams.map (remove uid))))

/-- `reService.ViewStream`: identify, GET `/streams/{name}`; 404 maps to
the not-found error, otherwise decode and strip the name prefix. -/
def viewStream (env : Env) (token name : String) : Outcome Stream :=
  match env.identify token with
  | none => ([], some (Except.error Err.unauthorizedAccess))
  | some uid =>
    let req : Request := ⟨"GET", host ++ "/streams/" ++ prepend uid name,
      Body.empty⟩
    match env.http req with
    | Except.error _ => ([req], some (Except.error Err.kuiperServer))
    | Except.ok res =>
      if res.statusCode = 404 then
        ([req], some (Except.error Err.notFound))
      else
        match env.decodeStream res.body with
        | none => ([req], some (Except.error Err.malformedEntity))
        | some stream =>
          ([req], some (Except.ok { stream with name := remove uid stream.name }))

/-- `reService.DeleteStream`: identify, DELETE `/streams/{name}`, translate
the response. -/
def deleteStream (env : Env) (token name : String) : Outcome String :=
  match env.identify token with
  | none => ([], some (Except.error Err.unauthorizedAccess))
  | some uid =>
    let req : Request := ⟨"DELETE", host ++ "/streams/" ++ prepend uid name,
      Body.empty⟩
    match env.http req with
    | Except.error _ => ([req], some (Except.error Err.kuiperServer))
    | Except.ok res => ([req], some (result res "Delete stream" 200))

/-- `reService.CreateRule`: identify, channel check on the first action's
channel (panicking when the action list is empty), namespace the rule id,
rewrite the SQL `from` clause (panicking when the rewrite index is out of
bounds), then POST to `/rules` and translate the response. -/
def createRule (env : Env) (token : String) (rule : Rule) : Outcome String :=
  match env.identify token with
  | none => ([], some (Except.error Err.unauthorizedAccess))
  | some uid =>
    match rule.actions[0]? with
    | none => ([], none)
    | some a0 =>
      if env.channelOk a0.mainflux.channel token then
        match rewriteSQL uid rule.SQL with
        | none => ([], none)
        | some newSQL =>
          let rule2 : Rule := ⟨prepend uid rule.ID, newSQL, rule.actions⟩
          let req : Request := ⟨"POST", host ++ "/rules", Body.ruleBody rule2⟩
          match env.http req with
          | Except.error _ => ([req], some (Except.error Err.kuiperServer))
          | Except.ok res => ([req], some (result res "Create rule" 201))
      else ([], some (Except.error Err.unauthorizedAccess))

/-- Does `pat` occur as a contiguous sublist of `s`?  (The search performed
by `strings.Replace` before substituting.) -/
def occursIn (pat : List Char) : List Char → Bool
  | [] => pat.isPrefixOf ([] : List Char)
  | c :: rest => pat.isPrefixOf (c :: rest) || occursIn pat rest

/- Concrete collaborator environments used to exercise the operations. -/

/-- Environment where every token resolves to identity "u", every channel
exists, the backend replies 201 with an empty body, and the decoders return
fixed payloads. -/
def envAuth : Env where
  identify := fun _ => some "u"
  channelOk := fun _ _ => true
  http := fun _ => Except.ok ⟨201, ""⟩
  decodeInfo := fun _ => some ⟨"1.0", "linux", 7⟩
  decodeStrings := fun _ => some ["u_abc", "xu_y"]
  decodeStream := fun _ => some ⟨"u_abc", ""⟩

/-- Same backend as `envAuth` but every identity lookup fails. -/
def envNoAuth : Env :=
  { envAuth with identify := fun _ => none }

/-- Same as `envAuth` but the backend replies 404. -/
def envNotFound : Env :=
  { envAuth with http := fun _ => Except.ok ⟨404, ""⟩ }

/-- Same as `envAuth` but the backend replies 418 with body "teapot". -/
def envFail : Env :=
  { envAuth with http := fun _ => Except.ok ⟨418, "teapot"⟩ }

/- Helper lemmas about the string/list plumbing. -/

theorem removeOnce_of_isPrefixOf (p s : List Char) (h : p.isPrefixOf s) :
    removeOnce p s = s.drop p.length := by
  cases s with
  | nil => simp [removeOnce, h]
  | cons c rest => simp [removeOnce, h]

theorem removeOnce_append (p r : List Char) : removeOnce p (p ++ r) = r := by
  rw [removeOnce_of_isPrefixOf]
  · exact List.drop_left p r
  · exact List.isPrefixOf_iff_prefix.mpr (List.prefix_append p r)

theorem removeOnce_of_not_occursIn (p s : List Char)
    (h : occursIn p s = false) : removeOnce p s = s := by
  induction s with
  | nil =>
    simp only [occursIn] at h
    simp [removeOnce, h]
  | cons c rest ih =>
    simp only [occursIn, Bool.or_eq_false_iff] at h
    simp [removeOnce, h.1, ih h.2]

theorem indexOfAux_of_not_mem (e : String) (l : List String) (k : Int)
    (h : e ∉ l) : indexOfAux e l k = -1 := by
  induction l generalizing k with
  | nil => rfl
  | cons v rest ih =>
    simp only [List.mem_cons, not_or] at h
    simp [indexOfAux, h.1, ih _ h.2]

theorem indexOfAux_append (e : String) (pre post : List String) (k : Int)
    (h : e ∉ pre) : indexOfAux e (pre ++ e :: post) k = k + pre.length := by
  induction pre generalizing k with
  | nil => simp [indexOfAux]
  | cons v rest ih =>
    simp only [List.mem_cons, not_or] at h
    rw [List.cons_append,
      show indexOfAux e (v :: (rest ++ e :: post)) k =
          indexOfAux e (rest ++ e :: post) (k + 1) from by
        simp [indexOfAux, h.1],
      ih (k + 1) h.2]
    simp only [List.length_cons]
    push_cast
    ring

theorem indexOf_of_not_mem (e : String) (l : List String) (h : e ∉ l) :
    indexOf e l = -1 :=
  indexOfAux_of_not_mem e l 0 h

theorem indexOf_append (e : String) (pre post : List String)
    (h : e ∉ pre) : indexOf e (pre ++ e :: post) = (pre.length : Int) := by
  rw [indexOf, indexOfAux_append e pre post 0 h]
  ring

theorem result_ne_error (res : Response) (action : String) (status : Nat)
    (e : Err) : result res action status ≠ Except.error e := by
  unfold result
  split <;> simp

/-- C1 (amended): for every access token failing identity lookup, each of
the six token-taking operations (CreateStream, UpdateStream, ListStreams,
ViewStream, DeleteStream, CreateRule) returns the unauthorized-access
error and performs no HTTP request; Info, however, takes no token,
performs no identity check, and always issues its health-endpoint GET. -/
theorem C1_unauthorized_no_backend (env : Env) (token : String)
    (h : env.identify token = none) :
    (∀ name topic row, createStream env token name topic row =
        ([], some (Except.error Err.unauthorizedAccess))) ∧
    (∀ name topic row, updateStream env token name topic row =
        ([], some (Except.error Err.unauthorizedAccess))) ∧
    listStreams env token = ([], some (Except.error Err.unauthorizedAccess)) ∧
    (∀ name, viewStream env token name =
        ([], some (Except.error Err.unauthorizedAccess))) ∧
    (∀ name, deleteStream env token name =
        ([], some (Except.error Err.unauthorizedAccess))) ∧
    (∀ rule, createRule env token rule =
        ([], some (Except.error Err.unauthorizedAccess))) ∧
    (∀ env2 : Env, (info env2).1 = [⟨"GET", host, Body.empty⟩]) := by
  refine ⟨?_, ?_, ?_, ?_, ?_, ?_, ?_⟩
  · intro name topic row
    simp [createStream, h]
  · intro name topic row
    simp [updateStream, h]
  · simp [listStreams, h]
  · intro name
    simp [viewStream, h]
  · intro name
    simp [deleteStream, h]
  · intro rule
    simp [createRule, h]
  · intro env2
    rcases hh : env2.http ⟨"GET", host, Body.empty⟩ with e | res
    · simp [info, hh]
    · rcases hd : env2.decodeInfo res.body with _ | i <;> simp [info, hh, hd]

/-- C1 counterexample: under an environment where every identity lookup
fails, Info still issues its HTTP request and does not return the
unauthorized-access error, so the claim is false for the Info operation. -/
theorem C1_info_counterexample :
    envNoAuth.identify "tok" = none ∧
    (info envNoAuth).1 = [⟨"GET", host, Body.empty⟩] ∧
    (info envNoAuth).2 ≠ some (Except.error Err.unauthorizedAccess) := by
  refine ⟨rfl, by decide, by decide⟩

/-- C1 witness: the amended theorem instantiated on a concrete
environment, token and arguments. -/
theorem C1_witness :
    envNoAuth.identify "tok" = none ∧
    createStream envNoAuth "tok" "n" "t" "r" =
      ([], some (Except.error Err.unauthorizedAccess)) ∧
    createRule envNoAuth "tok" ⟨"r1", "select * from t", [⟨⟨"ch"⟩⟩]⟩ =
      ([], some (Except.error Err.unauthorizedAccess)) := by
  have h := C1_unauthorized_no_backend envNoAuth "tok" rfl
  exact ⟨rfl, h.1 "n" "t" "r", h.2.2.2.2.2.1 ⟨"r1", "select * from t", [⟨⟨"ch"⟩⟩]⟩⟩

/-- C4: namespacing round-trips: removing the caller prefix from the name
obtained by prepending it yields the original name, for every caller
identity and every resource name. -/
theorem C4_namespace_roundtrip (u r : String) : remove u (prepend u r) = r := by
  obtain ⟨d⟩ := r
  show String.mk (removeOnce (pfx u).data ((pfx u).data ++ d)) = String.mk d
  rw [removeOnce_append]

/-- C8 counterexample: a rule with an empty actions list presented with a
token that fails identity lookup makes CreateRule return the
unauthorized-access error kind, so as universally stated ("the operation
cannot return any of the defined error kinds") the claim fails. -/
theorem C8_counterexample :
    (⟨"r1", "select * from t", []⟩ : Rule).actions = [] ∧
    createRule envNoAuth "tok" ⟨"r1", "select * from t", []⟩ =
      ([], some (Except.error Err.unauthorizedAccess)) := by
  exact ⟨rfl, by decide⟩

/-- C8 (amended): for every token that passes identity lookup and every
rule with an empty actions list, CreateRule hits the out-of-bounds access
to the first action in the channel-existence check: the panic branch, no
HTTP request, and none of the defined error kinds. -/
theorem C8_empty_actions_panics (env : Env) (token uid : String) (rule : Rule)
    (hid : env.identify token = some uid) (hact : rule.actions = []) :
    createRule env token rule = ([], none) := by
  simp [createRule, hid, hact]

/-- C8 witness: the amended theorem instantiated on a concrete
environment, token and empty-actions rule. -/
theorem C8_witness :
    envAuth.identify "tok" = some "u" ∧
    (⟨"r1", "q", []⟩ : Rule).actions = [] ∧
    createRule envAuth "tok" ⟨"r1", "q", []⟩ = ([], none) :=
  ⟨rfl, rfl, C8_empty_actions_panics envAuth "tok" "u" ⟨"r1", "q", []⟩ rfl rfl⟩

/-- C3 counterexample: the entry "xu_y" does not start with the caller
prefix "u_" of identity "u", yet ListStreams returns it changed to "xy",
because `remove` deletes the first occurrence of the prefix anywhere. -/
theorem C3_counterexample :
    (pfx "u").data.isPrefixOf ("xu_y").data = false ∧
    remove "u" "xu_y" = "xy" ∧
    listStreams envAuth "tok" =
      ([⟨"GET", host ++ "/streams", Body.empty⟩],
        some (Except.ok ["abc", "xy"])) := by
  exact ⟨by decide, by decide, by decide⟩

/-- C3 (amended): ListStreams maps every decoded entry through `remove`,
which deletes the first occurrence of the caller's prefix anywhere in the
entry: entries starting with the prefix get it stripped from the front and
entries not containing the prefix at all are returned unchanged, but an
entry merely containing the prefix further in is altered too. -/
theorem C3_list_streams_strip (env : Env) (token uid : String)
    (res : Response) (streams : List String)
    (hid : env.identify token = some uid)
    (hhttp : env.http ⟨"GET", host ++ "/streams", Body.empty⟩ = Except.ok res)
    (hdec : env.decodeStrings res.body = some streams) :
    listStreams env token = ([⟨"GET", host ++ "/streams", Body.empty⟩],
      some (Except.ok (streams.map (remove uid)))) ∧
    (∀ s : String, (pfx uid).data.isPrefixOf s.data →
      remove uid s = ⟨s.data.drop (pfx uid).data.length⟩) ∧
    (∀ s : String, occursIn (pfx uid).data s.data = false →
      remove uid s = s) := by
  refine ⟨?_, ?_, ?_⟩
  · simp [listStreams, hid, hhttp, hdec]
  · intro s hp
    show String.mk (removeOnce (pfx uid).data s.data) = _
    rw [removeOnce_of_isPrefixOf _ _ hp]
  · intro s hocc
    obtain ⟨d⟩ := s
    show String.mk (removeOnce (pfx uid).data d) = String.mk d
    rw [removeOnce_of_not_occursIn _ _ hocc]

/-- C3 witness: the amended theorem instantiated on a concrete
environment whose backend returns the two entries "u_abc" and "xu_y". -/
theorem C3_witness :
    listStreams envAuth "tok" =
      ([⟨"GET", host ++ "/streams", Body.empty⟩],
        some (Except.ok (["u_abc", "xu_y"].map (remove "u")))) :=
  (C3_list_streams_strip envAuth "tok" "u" ⟨201, ""⟩ ["u_abc", "xu_y"]
    rfl rfl rfl).1

/-- C5: a backend 404 on ViewStream yields the not-found error kind, and
no other operation ever returns the not-found kind, whatever the
collaborators do: the 404 mapping exists only in the view-stream path. -/
theorem C5_view_notfound (env : Env) (token name uid : String)
    (res : Response)
    (hid : env.identify token = some uid)
    (hhttp : env.http ⟨"GET", host ++ "/streams/" ++ prepend uid name,
      Body.empty⟩ = Except.ok res)
    (h404 : res.statusCode = 404) :
    viewStream env token name =
      ([⟨"GET", host ++ "/streams/" ++ prepend uid name, Body.empty⟩],
        some (Except.error Err.notFound)) ∧
    (∀ env2 : Env, (info env2).2 ≠ some (Except.error Err.notFound)) ∧
    (∀ env2 tk n t r,
      (createStream env2 tk n t r).2 ≠ some (Except.error Err.notFound)) ∧
    (∀ env2 tk n t r,
      (updateStream env2 tk n t r).2 ≠ some (Except.error Err.notFound)) ∧
    (∀ env2 tk,
      (listStreams env2 tk).2 ≠ some (Except.error Err.notFound)) ∧
    (∀ env2 tk n,
      (deleteStream env2 tk n).2 ≠ some (Except.error Err.notFound)) ∧
    (∀ env2 tk rule,
      (createRule env2 tk rule).2 ≠ some (Except.error Err.notFound)) := by
  refine ⟨?_, ?_, ?_, ?_, ?_, ?_, ?_⟩
  · simp [viewStream, hid, hhttp, h404]
  · intro env2
    rcases hh : env2.http ⟨"GET", host, Body.empty⟩ with e | res2
    · simp [info, hh]
    · rcases hd : env2.decodeInfo res2.body with _ | i <;> simp [info, hh, hd]
  · intro env2 tk n t r
    rcases h1 : env2.identify tk with _ | uid2
    · simp [createStream, h1]
    · cases h2 : env2.channelOk t tk with
      | false => simp [createStream, h1, h2]
      | true =>
        rcases h3 : env2.http ⟨"POST", host ++ "/streams",
            Body.sqlBody (sql (prepend uid2 n) t r)⟩ with e | res2
        · simp [createStream, h1, h2, h3]
        · simp [createStream, h1, h2, h3]
          exact result_ne_error res2 "Create stream" 201 Err.notFound
  · intro env2 tk n t r
    rcases h1 : env2.identify tk with _ | uid2
    · simp [updateStream, h1]
    · cases h2 : env2.channelOk t tk with
      | false => simp [updateStream, h1, h2]
      | true =>
        rcases h3 : env2.http ⟨"PUT", host ++ "/streams/" ++ prepend uid2 n,
            Body.sqlBody (sql (prepend uid2 n) t r)⟩ with e | res2
        · simp [updateStream, h1, h2, h3]
        · simp [updateStream, h1, h2, h3]
          exact result_ne_error res2 "Update stream" 200 Err.notFound
  · intro env2 tk
    rcases h1 : env2.identify tk with _ | uid2
    · simp [listStreams, h1]
    · rcases h3 : env2.http ⟨"GET", host ++ "/streams", Body.empty⟩
          with e | res2
      · simp [listStreams, h1, h3]
      · rcases hd : env2.decodeStrings res2.body with _ | l <;>
          simp [listStreams, h1, h3, hd]
  · intro env2 tk n
    rcases h1 : env2.identify tk with _ | uid2
    · simp [deleteStream, h1]
    · rcases h3 : env2.http ⟨"DELETE", host ++ "/streams/" ++ prepend uid2 n,
          Body.empty⟩ with e | res2
      · simp [deleteStream, h1, h3]
      · simp [deleteStream, h1, h3]
        exact result_ne_error res2 "Delete stream" 200 Err.notFound
  · intro env2 tk rule
    rcases h1 : env2.identify tk with _ | uid2
    · simp [createRule, h1]
    · rcases ha : rule.actions[0]? with _ | a0
      · simp [createRule, h1, ha]
      · cases h2 : env2.channelOk a0.mainflux.channel tk with
        | false => simp [createRule, h1, ha, h2]
        | true =>
          rcases hr : rewriteSQL uid2 rule.SQL with _ | newSQL
          · simp [createRule, h1, ha, h2, hr]
          · rcases h3 : env2.http ⟨"POST", host ++ "/rules",
                Body.ruleBody ⟨prepend uid2 rule.ID, newSQL, rule.actions⟩⟩
                with e | res2
            · simp [createRule, h1, ha, h2, hr, h3]
            · simp [createRule, h1, ha, h2, hr, h3]
              exact result_ne_error res2 "Create rule" 201 Err.notFound

/-- C5 witness: the theorem instantiated on a concrete environment whose
backend replies 404 to everything. -/
theorem C5_witness :
    viewStream envNotFound "tok" "n" =
      ([⟨"GET", host ++ "/streams/" ++ prepend "u" "n", Body.empty⟩],
        some (Except.error Err.notFound)) :=
  (C5_view_notfound envNotFound "tok" "n" "u" ⟨404, ""⟩ rfl rfl rfl).1

/-- C6: a response whose status differs from the expected one yields a
success value (never an error) whose string carries the action name, the
decimal status code and the raw response body; a matching status yields
"<action> successful." — and each of the four mutating operations feeds
its response into this translation with its action name and expected
status (201 for the creates, 200 for update and delete). -/
theorem C6_status_strings (env : Env) (token uid : String) (res : Response)
    (hid : env.identify token = some uid) :
    (∀ action status, res.statusCode ≠ status →
      result res action status = Except.ok (action ++
        " failed. Kuiper http status: " ++ Nat.repr res.statusCode ++ ". " ++
        res.body)) ∧
    (∀ action status, res.statusCode = status →
      result res action status = Except.ok (action ++ " successful.")) ∧
    (∀ name topic row, env.channelOk topic token = true →
      env.http ⟨"POST", host ++ "/streams",
        Body.sqlBody (sql (prepend uid name) topic row)⟩ = Except.ok res →
      (createStream env token name topic row).2 =
        some (result res "Create stream" 201)) ∧
    (∀ name topic row, env.channelOk topic token = true →
      env.http ⟨"PUT", host ++ "/streams/" ++ prepend uid name,
        Body.sqlBody (sql (prepend uid name) topic row)⟩ = Except.ok res →
      (updateStream env token name topic row).2 =
        some (result res "Update stream" 200)) ∧
    (∀ name, env.http ⟨"DELETE", host ++ "/streams/" ++ prepend uid name,
        Body.empty⟩ = Except.ok res →
      (deleteStream env token name).2 =
        some (result res "Delete stream" 200)) ∧
    (∀ rule a0 newSQL, rule.actions[0]? = some a0 →
      env.channelOk a0.mainflux.channel token = true →
      rewriteSQL uid rule.SQL = some newSQL →
      env.http ⟨"POST", host ++ "/rules",
        Body.ruleBody ⟨prepend uid rule.ID, newSQL, rule.actions⟩⟩ =
          Except.ok res →
      (createRule env token rule).2 =
        some (result res "Create rule" 201)) := by
  refine ⟨?_, ?_, ?_, ?_, ?_, ?_⟩
  · intro action status hne
    simp [result, hne]
  · intro action status heq
    simp [result, heq]
  · intro n t r hch hh
    simp [createStream, hid, hch, hh]
  · intro n t r hch hh
    simp [updateStream, hid, hch, hh]
  · intro n hh
    simp [deleteStream, hid, hh]
  · intro rule a0 newSQL hact hch hrw hh
    simp [createRule, hid, hact, hch, hrw, hh]

/-- C6 witness: on a concrete backend replying 418 "teapot", CreateStream
returns the success value carrying action, code and body, and on the
matching 201 it returns the plain success message. -/
theorem C6_witness :
    result ⟨418, "teapot"⟩ "Create stream" 201 = Except.ok
      ("Create stream" ++ " failed. Kuiper http status: " ++ Nat.repr 418 ++
        ". " ++ "teapot") ∧
    (createStream envFail "tok" "n" "t" "r").2 =
      some (result ⟨418, "teapot"⟩ "Create stream" 201) ∧
    result ⟨201, ""⟩ "Create rule" 201 =
      Except.ok ("Create rule" ++ " successful.") := by
  have h := C6_status_strings envFail "tok" "u" ⟨418, "teapot"⟩ rfl
  have h2 := C6_status_strings envAuth "tok" "u" ⟨201, ""⟩ rfl
  exact ⟨h.1 "Create stream" 201 (by decide),
    h.2.2.1 "n" "t" "r" rfl rfl,
    h2.2.1 "Create rule" 201 rfl⟩

/-- C7: CreateStream and UpdateStream build exactly the documented query
string around the namespaced name, the row schema, the topic and the two
fixed FORMAT/TYPE constants, and send it as the sql field of the JSON body
via POST to /streams (create) resp. PUT to /streams/{namespaced-name}
(update). -/
theorem C7_query_string (env : Env) (token uid name topic row : String)
    (hid : env.identify token = some uid)
    (hch : env.channelOk topic token = true) :
    sql (prepend uid name) topic row =
      "create stream " ++ prepend uid name ++ " (" ++ row ++
        ") WITH (DATASOURCE = \"" ++ topic ++ "\" FORMAT = \"" ++ FORMAT ++
        "\" TYPE = \"" ++ TYPE ++ "\")" ∧
    (createStream env token name topic row).1 =
      [⟨"POST", host ++ "/streams",
        Body.sqlBody (sql (prepend uid name) topic row)⟩] ∧
    (updateStream env token name topic row).1 =
      [⟨"PUT", host ++ "/streams/" ++ prepend uid name,
        Body.sqlBody (sql (prepend uid name) topic row)⟩] := by
  refine ⟨rfl, ?_, ?_⟩
  · rcases h3 : env.http ⟨"POST", host ++ "/streams",
        Body.sqlBody (sql (prepend uid name) topic row)⟩ with e | res <;>
      simp [createStream, hid, hch, h3]
  · rcases h3 : env.http ⟨"PUT", host ++ "/streams/" ++ prepend uid name,
        Body.sqlBody (sql (prepend uid name) topic row)⟩ with e | res <;>
      simp [updateStream, hid, hch, h3]

/-- C7 witness: the theorem instantiated on a concrete environment and
concrete name, topic and row. -/
theorem C7_witness :
    (createStream envAuth "tok" "n" "t" "r").1 =
      [⟨"POST", host ++ "/streams",
        Body.sqlBody (sql (prepend "u" "n") "t" "r")⟩] :=
  (C7_query_string envAuth "tok" "u" "n" "t" "r" rfl rfl).2.1

/-- C2 counterexample: the SQL "select * from" contains the token `from`,
yet CreateRule sends no rewritten query at all: the token following `from`
does not exist and the rewrite indexes out of bounds (the Go code
panics), so the claim fails for this rule. -/
theorem C2_counterexample :
    "from" ∈ fields "select * from" ∧
    createRule envAuth "tok" ⟨"r1", "select * from", [⟨⟨"ch"⟩⟩]⟩ =
      ([], none) := by
  exact ⟨by decide, by decide⟩

/-- C2 (amended): for every rule whose tokenized SQL has a first
occurrence of the token `from` that is followed by at least one further
token, CreateRule replaces exactly that following token with its
namespaced form and leaves every other token unchanged in the query sent
to the backend. -/
theorem C2_from_rewrite (env : Env) (token uid : String) (rule : Rule)
    (a0 : Action) (pre post : List String) (w : String)
    (hid : env.identify token = some uid)
    (hact : rule.actions[0]? = some a0)
    (hch : env.channelOk a0.mainflux.channel token = true)
    (hws : fields rule.SQL = pre ++ "from" :: w :: post)
    (hnf : "from" ∉ pre) :
    rewriteSQL uid rule.SQL =
      some (String.intercalate " " (pre ++ "from" :: prepend uid w :: post)) ∧
    (createRule env token rule).1 =
      [⟨"POST", host ++ "/rules", Body.ruleBody
        ⟨prepend uid rule.ID,
          String.intercalate " " (pre ++ "from" :: prepend uid w :: post),
          rule.actions⟩⟩] := by
  have hidx : indexOf "from" (fields rule.SQL) = (pre.length : Int) := by
    rw [hws]
    exact indexOf_append "from" pre (w :: post) hnf
  have htn : (indexOf "from" (fields rule.SQL) + 1).toNat = pre.length + 1 := by
    rw [hidx]
    omega
  have hget : (fields rule.SQL)[pre.length + 1]? = some w := by
    rw [hws, List.getElem?_append_right (by omega)]
    simp
  have hset : (fields rule.SQL).set (pre.length + 1) (prepend uid w) =
      pre ++ "from" :: prepend uid w :: post := by
    rw [hws, List.set_append_right _ _ (by omega)]
    simp
  have hrw : rewriteSQL uid rule.SQL =
      some (String.intercalate " " (pre ++ "from" :: prepend uid w :: post)) := by
    simp only [rewriteSQL, htn, hget, hset]
  refine ⟨hrw, ?_⟩
  rcases h3 : env.http ⟨"POST", host ++ "/rules", Body.ruleBody
      ⟨prepend uid rule.ID,
        String.intercalate " " (pre ++ "from" :: prepend uid w :: post),
        rule.actions⟩⟩ with e | res <;>
    simp [createRule, hid, hact, hch, hrw, h3]

/-- C2 witness: the amended theorem instantiated on a concrete rule whose
SQL is "select * from t where x". -/
theorem C2_witness :
    rewriteSQL "u" "select * from t where x" =
      some (String.intercalate " "
        (["select", "*"] ++ "from" :: prepend "u" "t" :: ["where", "x"])) :=
  (C2_from_rewrite envAuth "tok" "u"
    ⟨"r1", "select * from t where x", [⟨⟨"ch"⟩⟩]⟩ ⟨⟨"ch"⟩⟩
    ["select", "*"] ["where", "x"] "t" rfl rfl rfl (by decide) (by decide)).1

/-- C9: when the tokenized SQL is non-empty and contains no case-sensitive
`from` token, the keyword index defaults to -1, so the rewrite namespaces
the first token; when the SQL tokenizes to the empty list, the rewrite
indexes out of bounds and CreateRule panics. -/
theorem C9_default_rewrite (uid sqlStr : String) :
    (∀ w rest, fields sqlStr = w :: rest → "from" ∉ w :: rest →
      rewriteSQL uid sqlStr =
        some (String.intercalate " " (prepend uid w :: rest))) ∧
    (fields sqlStr = [] → rewriteSQL uid sqlStr = none) ∧
    (∀ (env : Env) (token : String) (rule : Rule) (a0 : Action),
      env.identify token = some uid → rule.actions[0]? = some a0 →
      env.channelOk a0.mainflux.channel token = true →
      fields rule.SQL = [] → createRule env token rule = ([], none)) := by
  refine ⟨?_, ?_, ?_⟩
  · intro w rest hws hnf
    have hidx : indexOf "from" (fields sqlStr) = -1 := by
      rw [hws]
      exact indexOf_of_not_mem _ _ hnf
    have htn : (indexOf "from" (fields sqlStr) + 1).toNat = 0 := by
      rw [hidx]
      rfl
    have hget : (fields sqlStr)[0]? = some w := by
      rw [hws]
      simp
    have hset : (fields sqlStr).set 0 (prepend uid w) = prepend uid w :: rest := by
      rw [hws]
      rfl
    simp only [rewriteSQL, htn, hget, hset]
  · intro hws
    simp [rewriteSQL, hws, indexOf, indexOfAux]
  · intro env token rule a0 hid hact hch hws
    have hrw : rewriteSQL uid rule.SQL = none := by
      simp [rewriteSQL, hws, indexOf, indexOfAux]
    simp [createRule, hid, hact, hch, hrw]

/-- C9 witness: the theorem instantiated on the from-free SQL "select x"
and on an empty SQL, through a concrete environment. -/
theorem C9_witness :
    rewriteSQL "u" "select x" =
      some (String.intercalate " " (prepend "u" "select" :: ["x"])) ∧
    rewriteSQL "u" "" = none ∧
    createRule envAuth "tok" ⟨"r1", "", [⟨⟨"ch"⟩⟩]⟩ = ([], none) := by
  have h := C9_default_rewrite "u" "select x"
  have h0 := C9_default_rewrite "u" ""
  exact ⟨h.1 "select" ["x"] (by decide) (by decide),
    h0.2.1 (by decide),
    h0.2.2 envAuth "tok" ⟨"r1", "", [⟨⟨"ch"⟩⟩]⟩ ⟨⟨"ch"⟩⟩ rfl rfl rfl
      (by decide)⟩

/-- C10 counterexample: the sent SQL is not the plain single-space rejoin
of the original tokens, because the token at the rewrite index is also
namespaced: for SQL "select  x from t" the backend receives
"select x from u_t", not "select x from t". -/
theorem C10_counterexample :
    rewriteSQL "u" "select  x from t" = some "select x from u_t" ∧
    "select x from u_t" ≠
      String.intercalate " " (fields "select  x from t") ∧
    createRule envAuth "tok" ⟨"r", "select  x from t", [⟨⟨"ch"⟩⟩]⟩ =
      ([⟨"POST", host ++ "/rules",
          Body.ruleBody ⟨"u_r", "select x from u_t", [⟨⟨"ch"⟩⟩]⟩⟩],
        some (Except.ok "Create rule successful.")) := by
  exact ⟨by decide, by decide, by decide⟩

/-- C10 (amended): whenever the rewrite index is in bounds, the SQL sent
by CreateRule is the whitespace-separated tokens of the original SQL,
with only the token at the rewrite index replaced by its namespaced form,
re-joined with single spaces — so every run of whitespace (including
leading and trailing whitespace) collapses. -/
theorem C10_single_space_join (uid sqlStr w : String)
    (hget : (fields sqlStr)[(indexOf "from" (fields sqlStr) + 1).toNat]? =
      some w) :
    rewriteSQL uid sqlStr = some (String.intercalate " "
      ((fields sqlStr).set ((indexOf "from" (fields sqlStr) + 1).toNat)
        (prepend uid w))) ∧
    ((fields sqlStr).set ((indexOf "from" (fields sqlStr) + 1).toNat)
        (prepend uid w)).length = (fields sqlStr).length ∧
    (∀ j, j ≠ (indexOf "from" (fields sqlStr) + 1).toNat →
      ((fields sqlStr).set ((indexOf "from" (fields sqlStr) + 1).toNat)
        (prepend uid w))[j]? = (fields sqlStr)[j]?) ∧
    ((fields sqlStr).set ((indexOf "from" (fields sqlStr) + 1).toNat)
        (prepend uid w))[(indexOf "from" (fields sqlStr) + 1).toNat]? =
      some (prepend uid w) := by
  refine ⟨?_, List.length_set _ _ _, ?_, ?_⟩
  · simp only [rewriteSQL, hget]
  · intro j hj
    exact List.getElem?_set_ne (Ne.symm hj)
  · have hlt : (indexOf "from" (fields sqlStr) + 1).toNat <
        (fields sqlStr).length := by
      rcases List.getElem?_eq_some.mp hget with ⟨h, _⟩
      exact h
    exact List.getElem?_set_self hlt

/-- C10 witness: the amended theorem instantiated on the SQL
"a  from b   c", whose whitespace runs collapse in the sent query. -/
theorem C10_witness :
    rewriteSQL "u" "a  from b   c" = some (String.intercalate " "
      ((fields "a  from b   c").set
        ((indexOf "from" (fields "a  from b   c") + 1).toNat)
        (prepend "u" "b"))) :=
  (C10_single_space_join "u" "a  from b   c" "b" (by decide)).1

end Re
